import Mathlib

/-!
# Verification of the la-palma24 MCP protocol gateway

Shallow embedding of the dual-transport session and dispatch layer of the
repository (src/index.ts and src/index-http.ts), together with proofs about
the claims of the specification.

Modelling conventions:
* JSON values are the inductive `Json` below.  The source serializes results
  with `JSON.stringify(result, null, 2)`; serialization is abstracted away and
  envelopes, frames and bodies carry the `Json` value that the source
  serializes (field order preserved), so claims about "the JSON payload" are
  claims about this value.
* The backend HTTP client `apiCall` is the external collaborator of §6 of the
  spec; it is modelled by an oracle `Backend : BackendCall → Except ExecError
  Json`.  The `BackendCall` records exactly the endpoint, params object and
  HTTP verb that the gateway passes to `apiCall`; the oracle's `.error` arm
  covers every failure `apiCall` can raise (non-2xx status, network failure).
* JavaScript `Error` objects are modelled by `ExecError` with the constructor
  name and the message; `error.toString()` is `name ++ ": " ++ message`.
* Messages thrown by the JavaScript runtime itself (destructuring `undefined`
  or `null`) are modelled by fixed strings; the real Node texts additionally
  put quote marks around the identifiers, which is immaterial to every claim.
-/

/-- JSON values, as produced by `JSON.parse` on a request body and consumed by
`JSON.stringify`.  Object field order is preserved (a `List` of pairs), since
the source builds objects with a fixed literal field order.  Numbers in the
source that matter to the protocol layer are integers. -/
inductive Json where
  | str (s : String)
  | num (n : Int)
  | bool (b : Bool)
  | null
  | arr (elems : List Json)
  | obj (fields : List (String × Json))

mutual
/-- Boolean equality on JSON values (structural). -/
def beqJson : Json → Json → Bool
  | .str s, .str t => s == t
  | .num n, .num m => n == m
  | .bool x, .bool y => x == y
  | .null, .null => true
  | .arr xs, .arr ys => beqJsonList xs ys
  | .obj fs, .obj gs => beqJsonFields fs gs
  | _, _ => false

/-- Boolean equality on JSON arrays. -/
def beqJsonList : List Json → List Json → Bool
  | [], [] => true
  | x :: xs, y :: ys => beqJson x y && beqJsonList xs ys
  | _, _ => false

/-- Boolean equality on JSON object field lists. -/
def beqJsonFields : List (String × Json) → List (String × Json) → Bool
  | [], [] => true
  | (k, v) :: fs, (l, w) :: gs => k == l && beqJson v w && beqJsonFields fs gs
  | _, _ => false
end

mutual
theorem beqJson_iff : ∀ a b : Json, beqJson a b = true ↔ a = b
  | .str s, b => by cases b <;> simp [beqJson]
  | .num n, b => by cases b <;> simp [beqJson]
  | .bool x, b => by cases b <;> simp [beqJson]
  | .null, b => by cases b <;> simp [beqJson]
  | .arr xs, b => by
      cases b <;> simp [beqJson]
      case arr ys => exact beqJsonList_iff xs ys
  | .obj fs, b => by
      cases b <;> simp [beqJson]
      case obj gs => exact beqJsonFields_iff fs gs

theorem beqJsonList_iff : ∀ xs ys : List Json, beqJsonList xs ys = true ↔ xs = ys
  | [], ys => by cases ys <;> simp [beqJsonList]
  | x :: xs, ys => by
      cases ys <;> simp [beqJsonList]
      case cons y ys =>
        rw [beqJson_iff x y, beqJsonList_iff xs ys]

theorem beqJsonFields_iff :
    ∀ fs gs : List (String × Json), beqJsonFields fs gs = true ↔ fs = gs
  | [], gs => by cases gs <;> simp [beqJsonFields]
  | (k, v) :: fs, gs => by
      cases gs <;> simp [beqJsonFields]
      case cons g gs =>
        obtain ⟨l, w⟩ := g
        rw [beqJson_iff v w, beqJsonFields_iff fs gs, Prod.mk.injEq]
end

instance : DecidableEq Json := fun a b =>
  decidable_of_iff (beqJson a b = true) (beqJson_iff a b)

/-- Property access `j[k]` on a JSON value: only objects have (string) fields;
an absent field or access on a non-object yields `none` (JS `undefined`). -/
def getField (j : Json) (k : String) : Option Json :=
  match j with
  | .obj fields => fields.lookup k
  | _ => none

mutual
/-- JavaScript string coercion `String(v)` for a JSON value, as used by
template literals in the source.  (For arrays, JS joins the element strings
with a comma, displaying `null` elements as the empty string; objects display
as "[object Object]".) -/
def jsString : Json → String
  | .str s => s
  | .num n => toString n
  | .bool b => if b then "true" else "false"
  | .null => "null"
  | .arr elems => String.intercalate "," (jsStringList elems)
  | .obj _ => "[object Object]"

/-- Element display inside an array: `null` displays empty. -/
def jsStringList : List Json → List String
  | [] => []
  | .null :: rest => "" :: jsStringList rest
  | j :: rest => jsString j :: jsStringList rest
end

/-- JS template-literal display of a possibly-undefined value (`undefined`
displays as the string "undefined"). -/
def jsDisplay : Option Json → String
  | none => "undefined"
  | some j => jsString j

/-- HTTP verb of a backend call. -/
inductive HMethod where
  | get
  | post
deriving DecidableEq

/-- One invocation of the backend HTTP client `apiCall(endpoint, params,
method)` exactly as the gateway issues it. -/
structure BackendCall where
  endpoint : String
  params : Json
  method : HMethod
deriving DecidableEq

/-- A JavaScript `Error`-like object: constructor name (e.g. "Error",
"TypeError") and message; `toString()` is `name ++ ": " ++ message`. -/
structure ExecError where
  name : String
  message : String
deriving DecidableEq

/-- The backend oracle: result of `await apiCall(...)` — parsed JSON on
success, a raised error (non-2xx response or transport failure) otherwise. -/
def Backend : Type := BackendCall → Except ExecError Json

/-- An MCP tool descriptor, as listed in the `tools` array of both source
files (the two files declare the identical catalog). -/
structure Tool where
  name : String
  description : String
  inputSchema : Json
deriving DecidableEq

/-- The Tool Catalog: the `tools : Tool[]` constant of the source, verbatim
(names, descriptions and JSON schemas), in declaration order. -/
def tools : List Tool := [
  { name := "buscar_disponibilidad",
    description := "Busca propiedades vacacionales disponibles en La Palma para unas fechas específicas. Permite filtrar por municipio, barrio y número de personas.",
    inputSchema := .obj [
      ("type", .str "object"),
      ("properties", .obj [
        ("fecha_llegada", .obj [
          ("type", .str "string"),
          ("description", .str "Fecha de llegada en formato YYYY-MM-DD (ej: 2024-06-15)"),
          ("pattern", .str "^\\d{4}-\\d{2}-\\d{2}$")]),
        ("fecha_salida", .obj [
          ("type", .str "string"),
          ("description", .str "Fecha de salida en formato YYYY-MM-DD (ej: 2024-06-22)"),
          ("pattern", .str "^\\d{4}-\\d{2}-\\d{2}$")]),
        ("num_personas", .obj [
          ("type", .str "number"),
          ("description", .str "Número de huéspedes (default: 2)"),
          ("minimum", .num 1)]),
        ("municipio", .obj [
          ("type", .str "string"),
          ("description", .str "Filtrar por municipio (ej: Santa Cruz de La Palma, Los Llanos de Aridane)")]),
        ("barrio", .obj [
          ("type", .str "string"),
          ("description", .str "Filtrar por barrio/zona (ej: Centro, San Telmo, El Charco)")])]),
      ("required", .arr [.str "fecha_llegada", .str "fecha_salida"])] },
  { name := "obtener_detalles_propiedad",
    description := "Obtiene información completa de una propiedad específica: características, amenidades, ubicación, precios, fotos, descripciones en el idioma solicitado.",
    inputSchema := .obj [
      ("type", .str "object"),
      ("properties", .obj [
        ("id_casa", .obj [
          ("type", .str "string"),
          ("description", .str "ID de la propiedad a consultar")]),
        ("idioma", .obj [
          ("type", .str "string"),
          ("description", .str "Idioma para descripciones: es (español), en (inglés), de (alemán)"),
          ("enum", .arr [.str "es", .str "en", .str "de"]),
          ("default", .str "es")])]),
      ("required", .arr [.str "id_casa"])] },
  { name := "calcular_precio_estancia",
    description := "Calcula el precio total de una estancia incluyendo tarifas por temporada, descuentos aplicables, número de noches y personas.",
    inputSchema := .obj [
      ("type", .str "object"),
      ("properties", .obj [
        ("id_casa", .obj [
          ("type", .str "string"),
          ("description", .str "ID de la propiedad")]),
        ("fecha_llegada", .obj [
          ("type", .str "string"),
          ("description", .str "Fecha de llegada en formato YYYY-MM-DD"),
          ("pattern", .str "^\\d{4}-\\d{2}-\\d{2}$")]),
        ("fecha_salida", .obj [
          ("type", .str "string"),
          ("description", .str "Fecha de salida en formato YYYY-MM-DD"),
          ("pattern", .str "^\\d{4}-\\d{2}-\\d{2}$")]),
        ("num_personas", .obj [
          ("type", .str "number"),
          ("description", .str "Número de huéspedes (default: 2)"),
          ("minimum", .num 1)])]),
      ("required", .arr [.str "id_casa", .str "fecha_llegada", .str "fecha_salida"])] },
  { name := "listar_propiedades",
    description := "Lista todas las propiedades vacacionales disponibles con filtros opcionales por ubicación, capacidad y características. Incluye paginación.",
    inputSchema := .obj [
      ("type", .str "object"),
      ("properties", .obj [
        ("municipio", .obj [
          ("type", .str "string"),
          ("description", .str "Filtrar por municipio")]),
        ("barrio", .obj [
          ("type", .str "string"),
          ("description", .str "Filtrar por barrio/zona")]),
        ("dormitorios", .obj [
          ("type", .str "number"),
          ("description", .str "Número de dormitorios"),
          ("minimum", .num 1)]),
        ("personas_max", .obj [
          ("type", .str "number"),
          ("description", .str "Capacidad mínima de personas"),
          ("minimum", .num 1)]),
        ("limit", .obj [
          ("type", .str "number"),
          ("description", .str "Número máximo de resultados (default: 50)"),
          ("minimum", .num 1),
          ("maximum", .num 100),
          ("default", .num 50)]),
        ("offset", .obj [
          ("type", .str "number"),
          ("description", .str "Offset para paginación (default: 0)"),
          ("minimum", .num 0),
          ("default", .num 0)])])] },
  { name := "listar_municipios",
    description := "Obtiene la lista completa de municipios disponibles en La Palma donde hay propiedades. Útil para saber qué ubicaciones se pueden filtrar.",
    inputSchema := .obj [
      ("type", .str "object"),
      ("properties", .obj [])] },
  { name := "listar_barrios",
    description := "Obtiene la lista de barrios/zonas disponibles, opcionalmente filtrados por municipio. Útil para búsquedas más específicas de ubicación.",
    inputSchema := .obj [
      ("type", .str "object"),
      ("properties", .obj [
        ("municipio", .obj [
          ("type", .str "string"),
          ("description", .str "Filtrar barrios por municipio (ej: Santa Cruz de La Palma)")])])] }
]

/-- The names of the catalog, in order. -/
def toolNames : List String := tools.map Tool.name

/-- What one pass through the tool `switch` does before consulting the
backend: either issue exactly one backend call, or throw locally (unknown
tool, or a destructuring `TypeError`) without any backend call. -/
inductive ToolStep where
  | call (bc : BackendCall)
  | localThrow (e : ExecError)
deriving DecidableEq

/-- Arguments as passed on to `apiCall`: `apiCall` defaults an `undefined`
params argument to `{}`; any present value (including `null`) passes through. -/
def argsOrEmpty (args : Option Json) : Json := args.getD (.obj [])

/-- Runtime message for destructuring a missing/`null` value (Node puts quote
marks around the identifiers; they are omitted here and load-bearing for no
claim). -/
def destructureArgsMsg (what : String) : String :=
  "Cannot destructure property id_casa of args as it is " ++ what ++ "."

/-- The `obtener_detalles_propiedad` branch: destructures
`{ id_casa, idioma = 'es' } = args` (throws a `TypeError` when `args` is
`undefined` or `null`; the `idioma` default fires only when the field is
absent), then calls `GET /api/propiedad/<id_casa>` with `{ idioma }`. -/
def detallesStep (args : Option Json) : ToolStep :=
  match args with
  | none => .localThrow ⟨"TypeError", destructureArgsMsg "undefined"⟩
  | some .null => .localThrow ⟨"TypeError", destructureArgsMsg "null"⟩
  | some a =>
      .call ⟨"/api/propiedad/" ++ jsDisplay (getField a "id_casa"),
             .obj [("idioma", (getField a "idioma").getD (.str "es"))],
             .get⟩

/-- The tool-name `switch` shared verbatim by `executeTool` (index-http.ts),
the stdio `CallToolRequestSchema` handler and the SSE `tools/call` branch
(index.ts).  JS `switch` uses strict equality, so only a string `name` can
match a case label; everything else falls to `default`, which throws
`Herramienta desconocida: <name>` (template-literal display of `name`). -/
def toolSwitch (name : Option Json) (args : Option Json) : ToolStep :=
  match name with
  | some (.str s) =>
      if s = "buscar_disponibilidad" then
        .call ⟨"/api/disponibilidad", argsOrEmpty args, .post⟩
      else if s = "obtener_detalles_propiedad" then
        detallesStep args
      else if s = "calcular_precio_estancia" then
        .call ⟨"/api/calcular-precio", argsOrEmpty args, .post⟩
      else if s = "listar_propiedades" then
        .call ⟨"/api/propiedades", argsOrEmpty args, .get⟩
      else if s = "listar_municipios" then
        .call ⟨"/api/municipios", .obj [], .get⟩
      else if s = "listar_barrios" then
        .call ⟨"/api/barrios", argsOrEmpty args, .get⟩
      else
        .localThrow ⟨"Error", "Herramienta desconocida: " ++ s⟩
  | _ => .localThrow ⟨"Error", "Herramienta desconocida: " ++ jsDisplay name⟩

/-- One `{type: "text", text}` content item of a Tool Result Envelope.  The
`text` field carries the JSON value that the source serializes with
`JSON.stringify(·, null, 2)`. -/
structure TextContent where
  ctype : String
  text : Json
deriving DecidableEq

/-- The MCP Tool Result Envelope `{content, isError?}`; `isError := none`
models the field being absent. -/
structure ToolResultEnvelope where
  content : List TextContent
  isError : Option Bool
deriving DecidableEq

/-- Success envelope: pretty-printed backend result, no `isError` field. -/
def successEnvelope (v : Json) : ToolResultEnvelope :=
  ⟨[⟨"text", v⟩], none⟩

/-- Failure envelope, as built in the `catch` blocks of `executeTool` and the
`CallToolRequestSchema` handler:
`{success: false, error: e.message, details: e.toString()}` with
`isError: true`. -/
def errorEnvelope (e : ExecError) : ToolResultEnvelope :=
  ⟨[⟨"text", .obj [
      ("success", .bool false),
      ("error", .str e.message),
      ("details", .str (e.name ++ ": " ++ e.message))]⟩],
   some true⟩

/-- `executeTool(name, args)` of index-http.ts (textually identical to the
`CallToolRequestSchema` handler of index.ts): run the tool `switch` inside a
`try`; every throw (unknown tool, destructuring error, backend failure) is
caught and converted into an `isError: true` envelope.  The second component
records the backend calls performed (empty for a local throw). -/
def executeTool (backend : Backend) (name : Option Json) (args : Option Json) :
    ToolResultEnvelope × List BackendCall :=
  match toolSwitch name args with
  | .localThrow e => (errorEnvelope e, [])
  | .call bc =>
      match backend bc with
      | .ok v => (successEnvelope v, [bc])
      | .error e => (errorEnvelope e, [bc])

/-- `Map.get` on the session registry (`sessionId ↦ channel handle`). -/
def lookupKey (s : String) : List (String × Nat) → Option Nat
  | [] => none
  | (k, v) :: t => if k = s then some v else lookupKey s t

/-- `Map.set`: replace the existing entry in place, else append (JS `Map`
insertion-order semantics). -/
def setKey (s : String) (h : Nat) : List (String × Nat) → List (String × Nat)
  | [] => [(s, h)]
  | (k, v) :: t => if k = s then (s, h) :: t else (k, v) :: setKey s h t

/-- `Map.delete`: remove the entry for the key (a no-op when absent). -/
def eraseKey (s : String) : List (String × Nat) → List (String × Nat)
  | [] => []
  | (k, v) :: t => if k = s then t else (k, v) :: eraseKey s t

/-- Look up the session id a channel handle was opened under. -/
def lookupConn (h : Nat) : List (Nat × String) → Option String
  | [] => none
  | (k, s) :: t => if k = h then some s else lookupConn h t

/-- Add a number to a duplicate-free list (no-op when present). -/
def insertNat (h : Nat) (l : List Nat) : List Nat :=
  if h ∈ l then l else h :: l

/-- Remove the first occurrence of a number from a list. -/
def eraseNat (h : Nat) : List Nat → List Nat
  | [] => []
  | x :: t => if x = h then t else x :: eraseNat h t

/-- A decoded incoming JSON-RPC message (the parsed POST body).  Each field is
`none` when absent (`undefined`).  The `method` field is modelled as an
optional string: the source only ever compares it against string literals and
tests its truthiness, and every claim concerns string or absent methods. -/
structure RpcMessage where
  jsonrpc : Option Json
  id : Option Json
  method : Option String
  params : Option Json
deriving DecidableEq

/-- The payload placed in the `result` field of a JSON-RPC response by the
router: each constructor records one of the literal result objects the source
builds. -/
inductive ResultPayload where
  | toolsList (ts : List Tool)
  | toolResult (env : ToolResultEnvelope)
  | initializeInfo (protocolVersion serverName serverVersion : String)
  | promptsList
  | resourcesList
deriving DecidableEq

/-- `result` XOR `error` of a JSON-RPC response; `data` is the optional
`data` field of an error object. -/
inductive RpcOutcome where
  | result (p : ResultPayload)
  | error (code : Int) (message : String) (data : Option String)
deriving DecidableEq

/-- A JSON-RPC response frame `{jsonrpc: "2.0", id, ...outcome}` (the
constant `jsonrpc` member is implicit).  `id` is the echoed request id,
`none` when the request had none (JSON serialization then drops the field). -/
structure RpcFrame where
  id : Option Json
  outcome : RpcOutcome
deriving DecidableEq

/-- The body of a synchronous HTTP reply: a JSON-RPC frame, a plain JSON
value, or empty (`res.end()`). -/
inductive HttpBody where
  | rpc (f : RpcFrame)
  | other (j : Json)
  | empty
deriving DecidableEq

/-- A synchronous HTTP reply: status code and body. -/
structure HttpReply where
  status : Nat
  body : HttpBody
deriving DecidableEq

/-- The fixed `initialize` result of both transports (protocol version and
the default server name/version from the source's environment fallbacks). -/
def initializePayload : ResultPayload :=
  .initializeInfo "2024-11-05" "lapalma24-propiedades" "1.0.0"

/-- JS `s.startsWith(pre)`, computed on the character lists (equivalent to
`String.startsWith`, but reducible by the kernel). -/
def jsStartsWith (s pre : String) : Bool := pre.data.isPrefixOf s.data

/-- Runtime message for destructuring `const {name, arguments} = params` when
`params` is `undefined`/`null` (quote marks of the Node text omitted). -/
def destructureParamsMsg (what : String) : String :=
  "Cannot destructure property name of message.params as it is " ++ what ++ "."

/-- Template-literal display of the `method` field (absent displays as
"undefined"). -/
def methodDisplay (m : Option String) : String := m.getD "undefined"

/-- The synchronous-HTTP transport adapter: `app.post('/')` of index-http.ts.
One request, one message, one reply.  Returns the HTTP reply and the list of
backend calls performed.  The branch order is the source's: jsonrpc
validation, `initialize`, `notifications/*`, `tools/list`, `tools/call`,
`prompts/list`, `resources/list`, then `-32601`.  The enclosing `try/catch`
(mapping any throw to a 500 `-32603` frame) can only fire on the
`message.params` destructuring in the `tools/call` branch, which is modelled
explicitly. -/
def handleHttp (backend : Backend) (msg : RpcMessage) : HttpReply × List BackendCall :=
  if msg.jsonrpc ≠ some (.str "2.0") then
    (⟨400, .rpc ⟨msg.id, .error (-32600) "Invalid Request: jsonrpc must be \"2.0\"" none⟩⟩, [])
  else if msg.method = some "initialize" then
    (⟨200, .rpc ⟨msg.id, .result initializePayload⟩⟩, [])
  else if (match msg.method with
           | some m => jsStartsWith m "notifications/"
           | none => false) then
    (⟨202, .empty⟩, [])
  else if msg.method = some "tools/list" then
    (⟨200, .rpc ⟨msg.id, .result (.toolsList tools)⟩⟩, [])
  else if msg.method = some "tools/call" then
    match msg.params with
    | none =>
        (⟨500, .rpc ⟨msg.id, .error (-32603) "Internal error"
            (some (destructureParamsMsg "undefined"))⟩⟩, [])
    | some .null =>
        (⟨500, .rpc ⟨msg.id, .error (-32603) "Internal error"
            (some (destructureParamsMsg "null"))⟩⟩, [])
    | some p =>
        let r := executeTool backend (getField p "name") (getField p "arguments")
        (⟨200, .rpc ⟨msg.id, .result (.toolResult r.1)⟩⟩, r.2)
  else if msg.method = some "prompts/list" then
    (⟨200, .rpc ⟨msg.id, .result .promptsList⟩⟩, [])
  else if msg.method = some "resources/list" then
    (⟨200, .rpc ⟨msg.id, .result .resourcesList⟩⟩, [])
  else
    (⟨200, .rpc ⟨msg.id, .error (-32601)
        ("Method not found: " ++ methodDisplay msg.method) none⟩⟩, [])

/-- The body of the `try` block of `app.post('/message')` of index.ts, after
the jsonrpc check: dispatch the message, producing either the frames written
to the session channel plus the backend calls performed (`ok`), or a thrown
error message (`error`, caught by the outer `catch`, which can only fire on
the `message.params` destructuring).  Branch order is the source's:
`tools/list`, `tools/call`, `initialize`, `notifications/initialized`, other
truthy `notifications/*`, other truthy methods (answered only when `id` is
not `undefined`), and a silent fall-through when `method` is absent or the
empty string. -/
def sseDispatch (backend : Backend) (msg : RpcMessage) :
    Except String (List RpcFrame × List BackendCall) :=
  if msg.method = some "tools/list" then
    .ok ([⟨msg.id, .result (.toolsList tools)⟩], [])
  else if msg.method = some "tools/call" then
    match msg.params with
    | none => .error (destructureParamsMsg "undefined")
    | some .null => .error (destructureParamsMsg "null")
    | some p =>
        match toolSwitch (getField p "name") (getField p "arguments") with
        | .localThrow e => .ok ([⟨msg.id, .error (-32603) e.message none⟩], [])
        | .call bc =>
            match backend bc with
            | .ok v => .ok ([⟨msg.id, .result (.toolResult (successEnvelope v))⟩], [bc])
            | .error e => .ok ([⟨msg.id, .error (-32603) e.message none⟩], [bc])
  else if msg.method = some "initialize" then
    .ok ([⟨msg.id, .result initializePayload⟩], [])
  else if msg.method = some "notifications/initialized" then
    .ok ([], [])
  else if (match msg.method with
           | some m => jsStartsWith m "notifications/"
           | none => false) then
    .ok ([], [])
  else if (match msg.method with
           | some m => decide (m ≠ "")
           | none => false) then
    match msg.id with
    | none => .ok ([], [])
    | some i =>
        .ok ([⟨some i, .error (-32601)
            ("Method not found: " ++ methodDisplay msg.method) none⟩], [])
  else
    .ok ([], [])

/-- The reply of the streaming side-channel POST: HTTP status and body of
the injection request itself, the frames written to the session's channel
(each is one `event: message` SSE frame), and the backend calls performed. -/
structure SseReply where
  status : Nat
  body : Json
  writes : List RpcFrame
  calls : List BackendCall
deriving DecidableEq

/-- The `202 {status: "accepted"}` acknowledgement body. -/
def acceptedBody : Json := .obj [("status", .str "accepted")]

/-- JS truthiness filter on an optional string: the empty string is falsy. -/
def truthyStr : Option String → Option String
  | some s => if s = "" then none else some s
  | none => none

/-- The streaming transport side-channel: `app.post('/message')` of index.ts.
Resolves the session id (`req.query.sessionId || req.headers['x-session-id']`,
each falsy when absent or empty), looks it up in the session registry (an
association list `sessionId ↦ channel handle`), validates the jsonrpc
envelope, and dispatches; dispatch outcomes are written to the channel and
the POST itself is answered `202 {status: "accepted"}`, while a throw inside
dispatch is answered `500 {error: message}` with nothing written. -/
def handleSse (backend : Backend) (reg : List (String × Nat))
    (querySid headerSid : Option String) (msg : RpcMessage) : SseReply :=
  match truthyStr querySid <|> truthyStr headerSid with
  | none => ⟨400, .obj [("error", .str "Missing sessionId")], [], []⟩
  | some sid =>
    match lookupKey sid reg with
    | none => ⟨404, .obj [("error", .str "Session not found")], [], []⟩
    | some _ =>
      if msg.jsonrpc ≠ some (.str "2.0") then
        ⟨400, .obj [("error", .str "Invalid JSON-RPC version")], [], []⟩
      else
        match sseDispatch backend msg with
        | .error e => ⟨500, .obj [("error", .str e)], [], []⟩
        | .ok (w, c) => ⟨202, acceptedBody, w, c⟩

/-- The streaming adapter's session state (`app.get('/sse')` of index.ts).
`table` is the live `sessions` map (`sessionId ↦ channel handle`) and
`timers` the set of active heartbeat intervals — the real mutable state.
`conns` (every channel ever opened, with the session id its close handler
captured), `closed` (channels whose connection has closed) and `nextHandle`
(fresh-handle counter) are history/ghost fields recording the lifecycle, so
that "live channel" and "stale handle" are expressible. -/
structure RegState where
  table : List (String × Nat)
  conns : List (Nat × String)
  closed : List Nat
  timers : List Nat
  nextHandle : Nat
deriving DecidableEq

/-- The process starts with no sessions. -/
def initialRegState : RegState := ⟨[], [], [], [], 0⟩

/-- A client opens a streaming channel (`app.get('/sse')`): the session id is
`req.query.sessionId` when truthy, else a generated one (`gen`, supplied by
the event since `Math.random()` is nondeterministic); a fresh channel handle
is allocated, `sessions.set(sessionId, ...)` stores it (overwriting any
previous entry for that id), and a heartbeat interval starts. -/
def openChannel (clientSid : Option String) (gen : String) (st : RegState) : RegState :=
  { table := setKey ((truthyStr clientSid).getD gen) st.nextHandle st.table,
    conns := (st.nextHandle, (truthyStr clientSid).getD gen) :: st.conns,
    closed := st.closed,
    timers := st.nextHandle :: st.timers,
    nextHandle := st.nextHandle + 1 }

/-- The `req.on('close')` handler of channel `h` fires: `clearInterval` on
its heartbeat, `sessions.delete(sessionId)` for the session id the handler
captured at open time, and the channel is dead from now on (ghost `closed`).
A handle that was never opened has no close handler: no-op. -/
def closeChannel (h : Nat) (st : RegState) : RegState :=
  match lookupConn h st.conns with
  | none => st
  | some sid =>
      { table := eraseKey sid st.table,
        conns := st.conns,
        closed := insertNat h st.closed,
        timers := eraseNat h st.timers,
        nextHandle := st.nextHandle }

/-- A heartbeat write on channel `h` throws: the interval cancels itself
(`clearInterval(heartbeat)` in the `catch`) — and nothing else happens; in
particular the registry entry is not removed. -/
def heartbeatFailure (h : Nat) (st : RegState) : RegState :=
  { st with timers := eraseNat h st.timers }

/-- One lifecycle event of the streaming adapter. -/
inductive RegEvent where
  | openEv (clientSid : Option String) (gen : String)
  | closeEv (h : Nat)
  | hbFailEv (h : Nat)

/-- Apply one lifecycle event. -/
def stepReg (st : RegState) : RegEvent → RegState
  | .openEv c g => openChannel c g st
  | .closeEv h => closeChannel h st
  | .hbFailEv h => heartbeatFailure h st

/-- Run a sequence of lifecycle events from process start. -/
def runReg (evs : List RegEvent) : RegState :=
  evs.foldl stepReg initialRegState

/-- The registry invariant: registry keys are duplicate-free; every
registered handle is below the fresh counter, not closed, and registered
under exactly the session id its close handler captured; closed handles are
below the counter; the connection history has duplicate-free handles below
the counter; heartbeat timers are duplicate-free and belong to opened
channels. -/
def RegInv (st : RegState) : Prop :=
  (st.table.map Prod.fst).Nodup ∧
  (∀ p ∈ st.table, p.2 < st.nextHandle ∧ p.2 ∉ st.closed ∧
      lookupConn p.2 st.conns = some p.1) ∧
  (∀ h ∈ st.closed, h < st.nextHandle) ∧
  (st.conns.map Prod.fst).Nodup ∧
  (∀ q ∈ st.conns, q.1 < st.nextHandle) ∧
  st.timers.Nodup ∧
  (∀ h ∈ st.timers, ∃ s, (h, s) ∈ st.conns)

theorem lookupKey_mem {s : String} {h : Nat} :
    ∀ {t : List (String × Nat)}, lookupKey s t = some h → (s, h) ∈ t
  | [], hl => by simp [lookupKey] at hl
  | (k, v) :: t, hl => by
      by_cases hk : k = s
      · simp [lookupKey, hk] at hl
        simp [hk, hl]
      · simp [lookupKey, hk] at hl
        exact List.mem_cons_of_mem _ (lookupKey_mem hl)

theorem lookupKey_eq_none_of_not_mem {s : String} :
    ∀ {t : List (String × Nat)}, s ∉ t.map Prod.fst → lookupKey s t = none
  | [], _ => rfl
  | (k, v) :: t, hn => by
      simp only [List.map_cons, List.mem_cons] at hn
      push_neg at hn
      have hk : ¬k = s := fun hk => hn.1 hk.symm
      simp [lookupKey, hk, lookupKey_eq_none_of_not_mem hn.2]

theorem mem_setKey {p : String × Nat} {s : String} {h : Nat} :
    ∀ {t : List (String × Nat)}, p ∈ setKey s h t → p = (s, h) ∨ p ∈ t
  | [], hp => by simpa [setKey] using hp
  | (k, v) :: t, hp => by
      by_cases hk : k = s
      · simp [setKey, hk] at hp
        rcases hp with hp | hp
        · exact .inl hp
        · exact .inr (List.mem_cons_of_mem _ hp)
      · simp only [setKey, if_neg hk, List.mem_cons] at hp
        rcases hp with hp | hp
        · exact .inr (by simp [hp])
        · rcases mem_setKey hp with hp2 | hp2
          · exact .inl hp2
          · exact .inr (List.mem_cons_of_mem _ hp2)

theorem keys_setKey {x s : String} {h : Nat} :
    ∀ {t : List (String × Nat)},
      x ∈ (setKey s h t).map Prod.fst → x = s ∨ x ∈ t.map Prod.fst := by
  intro t hx
  simp only [List.mem_map] at hx
  obtain ⟨p, hp, hfst⟩ := hx
  rcases mem_setKey hp with hp2 | hp2
  · exact .inl (by rw [← hfst, hp2])
  · exact .inr (by exact List.mem_map.mpr ⟨p, hp2, hfst⟩)

theorem nodup_keys_setKey {s : String} {h : Nat} :
    ∀ {t : List (String × Nat)},
      (t.map Prod.fst).Nodup → ((setKey s h t).map Prod.fst).Nodup
  | [], _ => by simp [setKey]
  | (k, v) :: t, hn => by
      simp only [List.map_cons, List.nodup_cons] at hn
      by_cases hk : k = s
      · simp only [setKey, if_pos hk, List.map_cons, List.nodup_cons]
        exact ⟨by rw [← hk]; exact hn.1, hn.2⟩
      · simp only [setKey, if_neg hk, List.map_cons, List.nodup_cons]
        refine ⟨fun hmem => ?_, nodup_keys_setKey hn.2⟩
        rcases keys_setKey hmem with hks | hks
        · exact hk hks
        · exact hn.1 hks

theorem mem_eraseKey {p : String × Nat} {s : String} :
    ∀ {t : List (String × Nat)}, p ∈ eraseKey s t → p ∈ t
  | [], hp => by simp [eraseKey] at hp
  | (k, v) :: t, hp => by
      by_cases hk : k = s
      · simp only [eraseKey, if_pos hk] at hp
        exact List.mem_cons_of_mem _ hp
      · simp only [eraseKey, if_neg hk, List.mem_cons] at hp
        rcases hp with hp | hp
        · simp [hp]
        · exact List.mem_cons_of_mem _ (mem_eraseKey hp)

theorem nodup_keys_eraseKey {s : String} :
    ∀ {t : List (String × Nat)},
      (t.map Prod.fst).Nodup → ((eraseKey s t).map Prod.fst).Nodup
  | [], _ => by simp [eraseKey]
  | (k, v) :: t, hn => by
      simp only [List.map_cons, List.nodup_cons] at hn
      by_cases hk : k = s
      · simp only [eraseKey, if_pos hk]
        exact hn.2
      · simp only [eraseKey, if_neg hk, List.map_cons, List.nodup_cons]
        refine ⟨fun hmem => ?_, nodup_keys_eraseKey hn.2⟩
        simp only [List.mem_map] at hmem
        obtain ⟨p, hp, hfst⟩ := hmem
        exact hn.1 (List.mem_map.mpr ⟨p, mem_eraseKey hp, hfst⟩)

theorem fst_ne_of_mem_eraseKey {p : String × Nat} {s : String} :
    ∀ {t : List (String × Nat)},
      (t.map Prod.fst).Nodup → p ∈ eraseKey s t → p.1 ≠ s
  | [], _, hp => by simp [eraseKey] at hp
  | (k, v) :: t, hn, hp => by
      simp only [List.map_cons, List.nodup_cons] at hn
      by_cases hk : k = s
      · simp only [eraseKey, if_pos hk] at hp
        intro hps
        exact hn.1 (List.mem_map.mpr ⟨p, hp, hps.trans hk.symm⟩)
      · simp only [eraseKey, if_neg hk, List.mem_cons] at hp
        rcases hp with hp | hp
        · rw [hp]; exact hk
        · exact fst_ne_of_mem_eraseKey hn.2 hp

theorem lookupKey_eraseKey_self {s : String} {t : List (String × Nat)}
    (hn : (t.map Prod.fst).Nodup) : lookupKey s (eraseKey s t) = none := by
  apply lookupKey_eq_none_of_not_mem
  intro hmem
  simp only [List.mem_map] at hmem
  obtain ⟨p, hp, hfst⟩ := hmem
  exact fst_ne_of_mem_eraseKey hn hp hfst

theorem eraseKey_of_not_mem {s : String} :
    ∀ {t : List (String × Nat)}, s ∉ t.map Prod.fst → eraseKey s t = t
  | [], _ => rfl
  | (k, v) :: t, hn => by
      simp only [List.map_cons, List.mem_cons] at hn
      push_neg at hn
      have hk : ¬k = s := fun hk => hn.1 hk.symm
      simp [eraseKey, hk, eraseKey_of_not_mem hn.2]

theorem eraseKey_eraseKey {s : String} {t : List (String × Nat)}
    (hn : (t.map Prod.fst).Nodup) : eraseKey s (eraseKey s t) = eraseKey s t := by
  apply eraseKey_of_not_mem
  intro hmem
  simp only [List.mem_map] at hmem
  obtain ⟨p, hp, hfst⟩ := hmem
  exact fst_ne_of_mem_eraseKey hn hp hfst

theorem lookupConn_mem {h : Nat} {s : String} :
    ∀ {c : List (Nat × String)}, lookupConn h c = some s → (h, s) ∈ c
  | [], hl => by simp [lookupConn] at hl
  | (k, v) :: c, hl => by
      by_cases hk : k = h
      · simp [lookupConn, hk] at hl
        simp [hk, hl]
      · simp [lookupConn, hk] at hl
        exact List.mem_cons_of_mem _ (lookupConn_mem hl)

theorem lookupConn_eq_none {h : Nat} :
    ∀ {c : List (Nat × String)}, lookupConn h c = none → ∀ s, (h, s) ∉ c
  | [], _, s => by simp
  | (k, v) :: c, hl, s => by
      by_cases hk : k = h
      · simp [lookupConn, hk] at hl
      · simp only [lookupConn, if_neg hk] at hl
        simp only [List.mem_cons, not_or]
        exact ⟨fun hq => hk (congrArg Prod.fst hq).symm,
          lookupConn_eq_none hl s⟩

theorem mem_insertNat {x h : Nat} {l : List Nat} :
    x ∈ insertNat h l ↔ x = h ∨ x ∈ l := by
  unfold insertNat
  split
  · next hmem => exact ⟨fun hx => .inr hx, fun hx => hx.elim (fun he => he ▸ hmem) id⟩
  · simp [List.mem_cons]

theorem insertNat_insertNat {h : Nat} {l : List Nat} :
    insertNat h (insertNat h l) = insertNat h l := by
  unfold insertNat
  split
  · next hmem => simp [hmem]
  · simp

theorem mem_eraseNat {x h : Nat} :
    ∀ {l : List Nat}, x ∈ eraseNat h l → x ∈ l
  | [], hx => by simp [eraseNat] at hx
  | y :: l, hx => by
      by_cases hy : y = h
      · simp only [eraseNat, if_pos hy] at hx
        exact List.mem_cons_of_mem _ hx
      · simp only [eraseNat, if_neg hy, List.mem_cons] at hx
        rcases hx with hx | hx
        · simp [hx]
        · exact List.mem_cons_of_mem _ (mem_eraseNat hx)

theorem nodup_eraseNat {h : Nat} :
    ∀ {l : List Nat}, l.Nodup → (eraseNat h l).Nodup
  | [], _ => by simp [eraseNat]
  | y :: l, hn => by
      simp only [List.nodup_cons] at hn
      by_cases hy : y = h
      · simp only [eraseNat, if_pos hy]
        exact hn.2
      · simp only [eraseNat, if_neg hy, List.nodup_cons]
        exact ⟨fun hmem => hn.1 (mem_eraseNat hmem), nodup_eraseNat hn.2⟩

theorem not_mem_eraseNat {h : Nat} :
    ∀ {l : List Nat}, l.Nodup → h ∉ eraseNat h l
  | [], _ => by simp [eraseNat]
  | y :: l, hn => by
      simp only [List.nodup_cons] at hn
      by_cases hy : y = h
      · simp only [eraseNat, if_pos hy]
        rw [← hy]
        exact fun hmem => hn.1 (hy ▸ hmem)
      · simp only [eraseNat, if_neg hy, List.mem_cons, not_or]
        exact ⟨fun he => hy he.symm, not_mem_eraseNat hn.2⟩

theorem eraseNat_of_not_mem {h : Nat} :
    ∀ {l : List Nat}, h ∉ l → eraseNat h l = l
  | [], _ => rfl
  | y :: l, hn => by
      simp only [List.mem_cons, not_or] at hn
      have hy : ¬y = h := fun hy => hn.1 hy.symm
      simp [eraseNat, hy, eraseNat_of_not_mem hn.2]

theorem eraseNat_eraseNat {h : Nat} {l : List Nat} (hn : l.Nodup) :
    eraseNat h (eraseNat h l) = eraseNat h l :=
  eraseNat_of_not_mem (not_mem_eraseNat hn)

theorem regInv_initial : RegInv initialRegState := by
  refine ⟨?_, ?_, ?_, ?_, ?_, ?_, ?_⟩ <;> simp [initialRegState]

theorem regInv_open {st : RegState} (c : Option String) (g : String)
    (hinv : RegInv st) : RegInv (openChannel c g st) := by
  obtain ⟨h1, h2, h3, h4, h5, h6, h7⟩ := hinv
  simp only [RegInv, openChannel]
  refine ⟨?_, ?_, ?_, ?_, ?_, ?_, ?_⟩
  · exact nodup_keys_setKey h1
  · intro p hp
    rcases mem_setKey hp with hp2 | hp2
    · subst hp2
      refine ⟨Nat.lt_succ_self _, fun hc => lt_irrefl _ (h3 _ hc), ?_⟩
      simp [lookupConn]
    · obtain ⟨hlt, hncl, hconn⟩ := h2 p hp2
      refine ⟨Nat.lt_succ_of_lt hlt, hncl, ?_⟩
      simp only [lookupConn]
      rw [if_neg (fun he => lt_irrefl _ (he ▸ hlt))]
      exact hconn
  · intro h hc
    exact Nat.lt_succ_of_lt (h3 h hc)
  · simp only [List.map_cons, List.nodup_cons]
    refine ⟨fun hmem => ?_, h4⟩
    simp only [List.mem_map] at hmem
    obtain ⟨q, hq, hfst⟩ := hmem
    exact lt_irrefl _ (hfst ▸ h5 q hq)
  · intro q hq
    rcases List.mem_cons.mp hq with hq2 | hq2
    · rw [hq2]
      exact Nat.lt_succ_self _
    · exact Nat.lt_succ_of_lt (h5 q hq2)
  · simp only [List.nodup_cons]
    refine ⟨fun hmem => ?_, h6⟩
    obtain ⟨s, hs⟩ := h7 _ hmem
    exact lt_irrefl _ (h5 _ hs)
  · intro h hmem
    rcases List.mem_cons.mp hmem with hm | hm
    · exact ⟨(truthyStr c).getD g, by rw [hm]; exact List.mem_cons_self _ _⟩
    · obtain ⟨s, hs⟩ := h7 h hm
      exact ⟨s, List.mem_cons_of_mem _ hs⟩

theorem regInv_close {st : RegState} (h : Nat)
    (hinv : RegInv st) : RegInv (closeChannel h st) := by
  obtain ⟨h1, h2, h3, h4, h5, h6, h7⟩ := hinv
  unfold closeChannel
  cases hconn : lookupConn h st.conns with
  | none => exact ⟨h1, h2, h3, h4, h5, h6, h7⟩
  | some sid =>
    refine ⟨?_, ?_, ?_, h4, h5, ?_, ?_⟩
    · exact nodup_keys_eraseKey h1
    · intro p hp
      have hpt := mem_eraseKey hp
      obtain ⟨hlt, hncl, hpc⟩ := h2 p hpt
      refine ⟨hlt, fun hc => ?_, hpc⟩
      rcases mem_insertNat.mp hc with hc2 | hc2
      · have hps : p.1 = sid := by
          rw [hc2] at hpc
          rw [hpc] at hconn
          exact Option.some.inj hconn
        exact fst_ne_of_mem_eraseKey h1 hp hps
      · exact hncl hc2
    · intro x hc
      rcases mem_insertNat.mp hc with hc2 | hc2
      · rw [hc2]
        exact h5 _ (lookupConn_mem hconn)
      · exact h3 x hc2
    · exact nodup_eraseNat h6
    · intro x hmem
      exact h7 x (mem_eraseNat hmem)

theorem regInv_hbFail {st : RegState} (h : Nat)
    (hinv : RegInv st) : RegInv (heartbeatFailure h st) := by
  obtain ⟨h1, h2, h3, h4, h5, h6, h7⟩ := hinv
  exact ⟨h1, h2, h3, h4, h5, nodup_eraseNat h6,
    fun x hmem => h7 x (mem_eraseNat hmem)⟩

theorem regInv_step {st : RegState} (e : RegEvent)
    (hinv : RegInv st) : RegInv (stepReg st e) := by
  cases e with
  | openEv c g => exact regInv_open c g hinv
  | closeEv h => exact regInv_close h hinv
  | hbFailEv h => exact regInv_hbFail h hinv

theorem regInv_foldl {st : RegState} (hinv : RegInv st) :
    ∀ evs : List RegEvent, RegInv (evs.foldl stepReg st)
  | [] => hinv
  | e :: evs => regInv_foldl (regInv_step e hinv) evs

/-- Every state reachable from process start satisfies the registry
invariant. -/
theorem regInv_run (evs : List RegEvent) : RegInv (runReg evs) :=
  regInv_foldl regInv_initial evs

/-- A backend oracle that fails every call (models an unreachable or erroring
backend API). -/
def failBackend : Backend :=
  fun _ => .error ⟨"Error", "API Error: 500 Internal Server Error"⟩

/-- A backend oracle that answers every call with a fixed municipality list
(the concrete scenario of §8 of the spec). -/
def okBackend : Backend :=
  fun _ => .ok (.arr [.str "Santa Cruz de La Palma", .str "Tazacorte"])

/-- C5 (counterexample): dispatching the unknown tool name "foo" yields an
`isError` envelope whose text body is
`{success: false, error: "Herramienta desconocida: foo", details: "Error: Herramienta desconocida: foo"}`
— not the `{success: false, error: "Unknown tool: foo"}` body the claim
states: the error string is Spanish and a `details` member is present. -/
theorem unknown_tool_envelope_counterexample :
    executeTool failBackend (some (.str "foo")) none =
      (⟨[⟨"text", .obj [
          ("success", .bool false),
          ("error", .str "Herramienta desconocida: foo"),
          ("details", .str "Error: Herramienta desconocida: foo")]⟩],
        some true⟩, []) ∧
    (executeTool failBackend (some (.str "foo")) none).1.content ≠
      [⟨"text", .obj [
          ("success", .bool false),
          ("error", .str "Unknown tool: foo")]⟩] := by
  constructor
  · rfl
  · decide

/-- C5 (amended): for every tool name not present in the dispatch table and
every argument object, dispatch performs no backend call, does not raise, and
returns a Tool Result Envelope with `isError: true` whose text body is the
JSON object
`{success: false, error: "Herramienta desconocida: <name>", details: "Error: Herramienta desconocida: <name>"}`
(with `<name>` the requested tool name). -/
theorem unknown_tool_envelope_amended (backend : Backend) (s : String)
    (args : Option Json) (hs : s ∉ toolNames) :
    executeTool backend (some (.str s)) args =
      (⟨[⟨"text", .obj [
          ("success", .bool false),
          ("error", .str ("Herramienta desconocida: " ++ s)),
          ("details", .str ("Error: " ++ ("Herramienta desconocida: " ++ s)))]⟩],
        some true⟩, []) := by
  simp only [toolNames, tools, List.map_cons, List.map_nil, List.mem_cons,
    List.not_mem_nil, or_false, not_or] at hs
  obtain ⟨n1, n2, n3, n4, n5, n6⟩ := hs
  simp [executeTool, toolSwitch, errorEnvelope, n1, n2, n3, n4, n5, n6]

/-- Witness for the amended C5 theorem at the concrete unknown name "foo". -/
theorem unknown_tool_envelope_amended_witness :
    executeTool okBackend (some (.str "foo")) none =
      (⟨[⟨"text", .obj [
          ("success", .bool false),
          ("error", .str ("Herramienta desconocida: " ++ "foo")),
          ("details", .str ("Error: " ++ ("Herramienta desconocida: " ++ "foo")))]⟩],
        some true⟩, []) :=
  unknown_tool_envelope_amended okBackend "foo" none (by decide)

/-- C9: for every `tools/list` request with an id, on either transport, the
result carries the Tool Catalog verbatim (`{tools}`), so the result's tool
names are exactly the catalog's names in the same order.  (The statement
quantifies over arbitrary id and params; the catalog's name list is also
computed explicitly.) -/
theorem tools_list_roundtrip (backend : Backend) (idv params : Option Json)
    (reg : List (String × Nat)) (sid : String) (ch : Nat)
    (hsid : sid ≠ "") (hreg : lookupKey sid reg = some ch) :
    handleHttp backend ⟨some (.str "2.0"), idv, some "tools/list", params⟩ =
      (⟨200, .rpc ⟨idv, .result (.toolsList tools)⟩⟩, []) ∧
    handleSse backend reg (some sid) none
        ⟨some (.str "2.0"), idv, some "tools/list", params⟩ =
      ⟨202, acceptedBody, [⟨idv, .result (.toolsList tools)⟩], []⟩ ∧
    tools.map Tool.name = ["buscar_disponibilidad", "obtener_detalles_propiedad",
      "calcular_precio_estancia", "listar_propiedades", "listar_municipios",
      "listar_barrios"] := by
  refine ⟨rfl, ?_, rfl⟩
  unfold handleSse
  simp only [truthyStr, if_neg hsid]
  rw [show (some sid <|> none) = some sid from rfl]
  dsimp only
  rw [hreg]
  rfl

/-- Witness for the C9 theorem at a concrete session registry and id. -/
theorem tools_list_roundtrip_witness :
    handleSse okBackend [("abc", 0)] (some "abc") none
        ⟨some (.str "2.0"), some (.num 3), some "tools/list", none⟩ =
      ⟨202, acceptedBody, [⟨some (.num 3), .result (.toolsList tools)⟩], []⟩ :=
  (tools_list_roundtrip okBackend (some (.num 3)) none [("abc", 0)] "abc" 0
    (by decide) rfl).2.1

/-- C10: a message injected on the streaming side-channel with a valid
jsonrpc envelope and a registered session but with the `method` field
entirely absent is silently dropped: no frame is written to the channel even
when an id is present, and the injection POST is still answered
`202 {status: "accepted"}`. -/
theorem sse_absent_method_dropped (backend : Backend) (reg : List (String × Nat))
    (q h : Option String) (sid : String) (ch : Nat) (idv params : Option Json)
    (hres : (truthyStr q <|> truthyStr h) = some sid)
    (hreg : lookupKey sid reg = some ch) :
    handleSse backend reg q h ⟨some (.str "2.0"), idv, none, params⟩ =
      ⟨202, acceptedBody, [], []⟩ := by
  unfold handleSse
  rw [hres]
  dsimp only
  rw [hreg]
  rfl

/-- Witness for the C10 theorem with an id present. -/
theorem sse_absent_method_dropped_witness :
    handleSse okBackend [("abc", 0)] (some "abc") none
        ⟨some (.str "2.0"), some (.num 7), none, none⟩ =
      ⟨202, acceptedBody, [], []⟩ :=
  sse_absent_method_dropped okBackend [("abc", 0)] (some "abc") none "abc" 0
    (some (.num 7)) none rfl rfl

/-- C7: a side-channel POST with no session identifier (neither query
parameter nor header supplies a truthy value) is rejected 400 with no
dispatch, no channel write and no backend call; one with an identifier that
is not in the registry (never opened, or already closed) is rejected 404,
likewise with no dispatch, no channel write and no backend call. -/
theorem sse_session_rejections (backend : Backend) (reg : List (String × Nat))
    (q h : Option String) (msg : RpcMessage) :
    ((truthyStr q <|> truthyStr h) = none →
      handleSse backend reg q h msg =
        ⟨400, .obj [("error", .str "Missing sessionId")], [], []⟩) ∧
    (∀ sid, (truthyStr q <|> truthyStr h) = some sid →
      lookupKey sid reg = none →
      handleSse backend reg q h msg =
        ⟨404, .obj [("error", .str "Session not found")], [], []⟩) := by
  constructor
  · intro hres
    unfold handleSse
    rw [hres]
  · intro sid hres hreg
    unfold handleSse
    rw [hres]
    dsimp only
    rw [hreg]

/-- Witness for the C7 theorem: no session id supplied, and an unknown
session id, at concrete inputs. -/
theorem sse_session_rejections_witness :
    handleSse okBackend [("abc", 0)] none none
        ⟨some (.str "2.0"), some (.num 1), some "tools/list", none⟩ =
      ⟨400, .obj [("error", .str "Missing sessionId")], [], []⟩ ∧
    handleSse okBackend [("abc", 0)] (some "gone") none
        ⟨some (.str "2.0"), some (.num 1), some "tools/list", none⟩ =
      ⟨404, .obj [("error", .str "Session not found")], [], []⟩ :=
  ⟨(sse_session_rejections okBackend [("abc", 0)] none none
      ⟨some (.str "2.0"), some (.num 1), some "tools/list", none⟩).1 rfl,
   (sse_session_rejections okBackend [("abc", 0)] (some "gone") none
      ⟨some (.str "2.0"), some (.num 1), some "tools/list", none⟩).2 "gone" rfl rfl⟩

theorem handleSse_of_dispatch (backend : Backend) (reg : List (String × Nat))
    (q h : Option String) (sid : String) (ch : Nat) (msg : RpcMessage)
    {w : List RpcFrame} {c : List BackendCall}
    (hres : (truthyStr q <|> truthyStr h) = some sid)
    (hreg : lookupKey sid reg = some ch)
    (hjs : msg.jsonrpc = some (.str "2.0"))
    (hd : sseDispatch backend msg = .ok (w, c)) :
    handleSse backend reg q h msg = ⟨202, acceptedBody, w, c⟩ := by
  unfold handleSse
  rw [hres]
  dsimp only
  rw [hreg]
  dsimp only
  rw [hjs, if_neg (fun hc => hc rfl), hd]

theorem sseDispatch_isOk (backend : Backend) (msg : RpcMessage)
    (hparams : ¬(msg.method = some "tools/call" ∧
      (msg.params = none ∨ msg.params = some .null))) :
    ∃ w c, sseDispatch backend msg = .ok (w, c) := by
  unfold sseDispatch
  by_cases h1 : msg.method = some "tools/list"
  · rw [if_pos h1]
    exact ⟨_, _, rfl⟩
  · rw [if_neg h1]
    by_cases h2 : msg.method = some "tools/call"
    · rw [if_pos h2]
      cases hp : msg.params with
      | none => exact absurd ⟨h2, .inl hp⟩ hparams
      | some p =>
        cases p with
        | null => exact absurd ⟨h2, .inr hp⟩ hparams
        | str s => exact ⟨_, _, rfl⟩
        | num n => exact ⟨_, _, rfl⟩
        | bool b => exact ⟨_, _, rfl⟩
        | arr xs => exact ⟨_, _, rfl⟩
        | obj fs =>
          dsimp only
          cases htool : toolSwitch (getField (.obj fs) "name")
              (getField (.obj fs) "arguments") with
          | localThrow e => exact ⟨_, _, rfl⟩
          | call bc =>
            dsimp only
            cases hb : backend bc with
            | ok v => exact ⟨_, _, rfl⟩
            | error e => exact ⟨_, _, rfl⟩
    · rw [if_neg h2]
      by_cases h3 : msg.method = some "initialize"
      · rw [if_pos h3]
        exact ⟨_, _, rfl⟩
      · rw [if_neg h3]
        by_cases h4 : msg.method = some "notifications/initialized"
        · rw [if_pos h4]
          exact ⟨_, _, rfl⟩
        · rw [if_neg h4]
          by_cases h5 : (match msg.method with
              | some m => jsStartsWith m "notifications/"
              | none => false) = true
          · rw [if_pos h5]
            exact ⟨_, _, rfl⟩
          · rw [if_neg h5]
            by_cases h6 : (match msg.method with
                | some m => decide (m ≠ "")
                | none => false) = true
            · rw [if_pos h6]
              cases msg.id with
              | none => exact ⟨_, _, rfl⟩
              | some i => exact ⟨_, _, rfl⟩
            · rw [if_neg h6]
              exact ⟨_, _, rfl⟩

theorem sseDispatch_silent (backend : Backend) (msg : RpcMessage) (m : String)
    (hm : msg.method = some m) (h1 : m ≠ "tools/list") (h2 : m ≠ "tools/call")
    (h3 : m ≠ "initialize")
    (hrest : m = "notifications/initialized" ∨
      jsStartsWith m "notifications/" = true ∨ msg.id = none) :
    sseDispatch backend msg = .ok ([], []) := by
  unfold sseDispatch
  rw [hm]
  rw [if_neg (fun hc => h1 (Option.some.inj hc)),
    if_neg (fun hc => h2 (Option.some.inj hc)),
    if_neg (fun hc => h3 (Option.some.inj hc))]
  by_cases h4 : m = "notifications/initialized"
  · rw [if_pos (by rw [h4])]
  · rw [if_neg (fun hc => h4 (Option.some.inj hc))]
    dsimp only
    by_cases h5 : jsStartsWith m "notifications/" = true
    · rw [if_pos h5]
    · rw [if_neg h5]
      by_cases h6 : m = ""
      · rw [if_neg (by rw [h6]; exact fun hc => by cases hc)]
      · rw [if_pos (decide_eq_true h6)]
        rcases hrest with hr | hr | hr
        · exact absurd hr h4
        · exact absurd hr h5
        · rw [hr]

/-- C2 (counterexample): on the streaming transport, a message whose jsonrpc
field is "1.0" injected into a registered session is answered with HTTP 400
and the plain body `{error: "Invalid JSON-RPC version"}` — not a JSON-RPC
error object with code -32600 (the body has no `code` member and no frame is
written), refuting the claim that the produced response is a -32600 JSON-RPC
error on every transport. -/
theorem sse_invalid_jsonrpc_counterexample :
    handleSse okBackend [("abc", 0)] (some "abc") none
        ⟨some (.str "1.0"), some (.num 1), some "tools/list", none⟩ =
      ⟨400, .obj [("error", .str "Invalid JSON-RPC version")], [], []⟩ ∧
    getField (.obj [("error", .str "Invalid JSON-RPC version")]) "code" = none ∧
    getField (.obj [("error", .str "Invalid JSON-RPC version")]) "jsonrpc" = none := by
  refine ⟨rfl, rfl, rfl⟩

/-- C2 (amended): for every incoming message whose jsonrpc field is missing
or not exactly "2.0", regardless of the method field and before any method
dispatch (no backend call, no channel write): on the synchronous HTTP
transport the response is HTTP 400 carrying a JSON-RPC error with code
-32600; on the streaming transport the injection POST is answered HTTP 400
with the plain JSON body `{error: "Invalid JSON-RPC version"}` (not a
JSON-RPC error object). -/
theorem invalid_jsonrpc_amended (backend : Backend) (msg : RpcMessage)
    (hj : msg.jsonrpc ≠ some (.str "2.0")) :
    handleHttp backend msg =
      (⟨400, .rpc ⟨msg.id, .error (-32600)
        "Invalid Request: jsonrpc must be \"2.0\"" none⟩⟩, []) ∧
    (∀ reg q h sid ch, (truthyStr q <|> truthyStr h) = some sid →
      lookupKey sid reg = some ch →
      handleSse backend reg q h msg =
        ⟨400, .obj [("error", .str "Invalid JSON-RPC version")], [], []⟩) := by
  constructor
  · unfold handleHttp
    rw [if_pos hj]
  · intro reg q h sid ch hres hreg
    unfold handleSse
    rw [hres]
    dsimp only
    rw [hreg]
    dsimp only
    rw [if_pos hj]

/-- Witness for the amended C2 theorem at a concrete message with jsonrpc
"1.0" (method `tools/list`, id 1). -/
theorem invalid_jsonrpc_amended_witness :
    handleHttp okBackend ⟨some (.str "1.0"), some (.num 1), some "tools/list", none⟩ =
      (⟨400, .rpc ⟨some (.num 1), .error (-32600)
        "Invalid Request: jsonrpc must be \"2.0\"" none⟩⟩, []) ∧
    handleSse okBackend [("abc", 0)] none (some "abc")
        ⟨some (.str "1.0"), some (.num 1), some "tools/list", none⟩ =
      ⟨400, .obj [("error", .str "Invalid JSON-RPC version")], [], []⟩ :=
  ⟨(invalid_jsonrpc_amended okBackend
      ⟨some (.str "1.0"), some (.num 1), some "tools/list", none⟩ (by decide)).1,
   (invalid_jsonrpc_amended okBackend
      ⟨some (.str "1.0"), some (.num 1), some "tools/list", none⟩ (by decide)).2
     [("abc", 0)] none (some "abc") "abc" 0 rfl rfl⟩

/-- C3 (counterexample): a notification-shaped `tools/list` message (id
absent) on the synchronous HTTP transport is still answered with a full
JSON-RPC result frame, refuting the claim that no response frame is ever
produced for notification-shaped messages of any method. -/
theorem notification_shaped_response_counterexample :
    handleHttp okBackend ⟨some (.str "2.0"), none, some "tools/list", none⟩ =
      (⟨200, .rpc ⟨none, .result (.toolsList tools)⟩⟩, []) := rfl

/-- C3 (amended): no response frame is produced only for `notifications/*`
messages (on both transports) and, on the streaming transport, for messages
whose method is not one of the recognized request methods when id is absent;
recognized request methods such as `tools/list` are answered with a response
frame even when id is absent (first conjunct of the counterexample).  Stated
here: (1) HTTP `notifications/*` → 202 empty, no frame; (2) streaming
`notifications/*` → 202 accepted, no frame written; (3) streaming
unrecognized method with id absent → 202 accepted, no frame written. -/
theorem notification_no_response_amended (backend : Backend) :
    (∀ msg m, msg.jsonrpc = some (.str "2.0") → msg.method = some m →
      jsStartsWith m "notifications/" = true →
      handleHttp backend msg = (⟨202, .empty⟩, [])) ∧
    (∀ reg q h sid ch msg m, (truthyStr q <|> truthyStr h) = some sid →
      lookupKey sid reg = some ch →
      msg.jsonrpc = some (.str "2.0") → msg.method = some m →
      jsStartsWith m "notifications/" = true →
      handleSse backend reg q h msg = ⟨202, acceptedBody, [], []⟩) ∧
    (∀ reg q h sid ch msg m, (truthyStr q <|> truthyStr h) = some sid →
      lookupKey sid reg = some ch →
      msg.jsonrpc = some (.str "2.0") → msg.method = some m → msg.id = none →
      m ≠ "tools/list" → m ≠ "tools/call" → m ≠ "initialize" →
      handleSse backend reg q h msg = ⟨202, acceptedBody, [], []⟩) := by
  have hstart_ne : ∀ m, jsStartsWith m "notifications/" = true →
      m ≠ "tools/list" ∧ m ≠ "tools/call" ∧ m ≠ "initialize" := by
    intro m hsw
    refine ⟨?_, ?_, ?_⟩ <;> rintro rfl <;> exact absurd hsw (by decide)
  refine ⟨?_, ?_, ?_⟩
  · intro msg m hjs hm hsw
    have hne := (hstart_ne m hsw).2.2
    unfold handleHttp
    rw [hjs, if_neg (fun hc => hc rfl), hm,
      if_neg (fun hc => hne (Option.some.inj hc))]
    dsimp only
    rw [if_pos hsw]
  · intro reg q h sid ch msg m hres hreg hjs hm hsw
    obtain ⟨n1, n2, n3⟩ := hstart_ne m hsw
    exact handleSse_of_dispatch backend reg q h sid ch msg hres hreg hjs
      (sseDispatch_silent backend msg m hm n1 n2 n3 (.inr (.inl hsw)))
  · intro reg q h sid ch msg m hres hreg hjs hm hid n1 n2 n3
    exact handleSse_of_dispatch backend reg q h sid ch msg hres hreg hjs
      (sseDispatch_silent backend msg m hm n1 n2 n3 (.inr (.inr hid)))

/-- Witness for the amended C3 theorem: a `notifications/cancelled`
notification on both transports, and an unrecognized id-less method
`"foo"` on the streaming transport. -/
theorem notification_no_response_amended_witness :
    handleHttp okBackend
        ⟨some (.str "2.0"), none, some "notifications/cancelled", none⟩ =
      (⟨202, .empty⟩, []) ∧
    handleSse okBackend [("abc", 0)] (some "abc") none
        ⟨some (.str "2.0"), none, some "notifications/cancelled", none⟩ =
      ⟨202, acceptedBody, [], []⟩ ∧
    handleSse okBackend [("abc", 0)] (some "abc") none
        ⟨some (.str "2.0"), none, some "foo", none⟩ =
      ⟨202, acceptedBody, [], []⟩ :=
  ⟨(notification_no_response_amended okBackend).1
      ⟨some (.str "2.0"), none, some "notifications/cancelled", none⟩
      "notifications/cancelled" rfl rfl (by decide),
   (notification_no_response_amended okBackend).2.1
      [("abc", 0)] (some "abc") none "abc" 0
      ⟨some (.str "2.0"), none, some "notifications/cancelled", none⟩
      "notifications/cancelled" rfl rfl rfl rfl (by decide),
   (notification_no_response_amended okBackend).2.2
      [("abc", 0)] (some "abc") none "abc" 0
      ⟨some (.str "2.0"), none, some "foo", none⟩
      "foo" rfl rfl rfl rfl rfl (by decide) (by decide) (by decide)⟩

/-- C6: every message injected into a registered open session with a valid
jsonrpc envelope whose dispatch completes (success, method-not-found, or
tool/backend failure — i.e. everything except the `message.params`
destructuring throw, which the claim does not list) is acknowledged on the
injection POST itself with `202 {status: "accepted"}`; the JSON-RPC outcome
appears only in the channel writes, never in the injection response body. -/
theorem sse_injection_always_accepted (backend : Backend)
    (reg : List (String × Nat)) (q h : Option String) (sid : String) (ch : Nat)
    (msg : RpcMessage)
    (hres : (truthyStr q <|> truthyStr h) = some sid)
    (hreg : lookupKey sid reg = some ch)
    (hjs : msg.jsonrpc = some (.str "2.0"))
    (hparams : ¬(msg.method = some "tools/call" ∧
      (msg.params = none ∨ msg.params = some .null))) :
    (handleSse backend reg q h msg).status = 202 ∧
    (handleSse backend reg q h msg).body = acceptedBody := by
  obtain ⟨w, c, hok⟩ := sseDispatch_isOk backend msg hparams
  rw [handleSse_of_dispatch backend reg q h sid ch msg hres hreg hjs hok]
  exact ⟨rfl, rfl⟩

/-- Witness for the C6 theorem: an unknown method with an id, and a failing
tools/call, both acknowledged 202 with the accepted body. -/
theorem sse_injection_always_accepted_witness :
    (handleSse failBackend [("abc", 0)] (some "abc") none
      ⟨some (.str "2.0"), some (.num 1), some "nope", none⟩).status = 202 ∧
    (handleSse failBackend [("abc", 0)] (some "abc") none
      ⟨some (.str "2.0"), some (.num 1), some "tools/call",
       some (.obj [("name", .str "listar_municipios")])⟩).body = acceptedBody :=
  ⟨(sse_injection_always_accepted failBackend [("abc", 0)] (some "abc") none
      "abc" 0 ⟨some (.str "2.0"), some (.num 1), some "nope", none⟩
      rfl rfl rfl (by decide)).1,
   (sse_injection_always_accepted failBackend [("abc", 0)] (some "abc") none
      "abc" 0 ⟨some (.str "2.0"), some (.num 1), some "tools/call",
        some (.obj [("name", .str "listar_municipios")])⟩
      rfl rfl rfl (by decide)).2⟩

/-- C1 (counterexample): on the streaming transport, tool-execution failures
are delivered as JSON-RPC error objects with code -32603 on the channel —
both for an unknown tool name ("foo") and for a backend failure
(`listar_municipios` against a failing backend) — refuting the claim that a
failed tool call is never a JSON-RPC error object and that -32603 errors
never carry backend-call failures. -/
theorem sse_tool_failure_error_frame_counterexample :
    handleSse failBackend [("abc", 0)] (some "abc") none
        ⟨some (.str "2.0"), some (.num 1), some "tools/call",
         some (.obj [("name", .str "foo")])⟩ =
      ⟨202, acceptedBody,
       [⟨some (.num 1), .error (-32603) "Herramienta desconocida: foo" none⟩],
       []⟩ ∧
    handleSse failBackend [("abc", 0)] (some "abc") none
        ⟨some (.str "2.0"), some (.num 2), some "tools/call",
         some (.obj [("name", .str "listar_municipios")])⟩ =
      ⟨202, acceptedBody,
       [⟨some (.num 2), .error (-32603) "API Error: 500 Internal Server Error" none⟩],
       [⟨"/api/municipios", .obj [], .get⟩]⟩ :=
  ⟨rfl, rfl⟩

/-- C1 (amended): on the synchronous HTTP transport, every `tools/call`
whose params destructure is answered by a successful JSON-RPC result carrying
the Tool Result Envelope — never a JSON-RPC error object — and every tool
failure (unknown tool or backend failure) yields the `isError: true`
envelope with the structured JSON error payload; on the streaming transport,
however, tool failures are delivered as JSON-RPC error objects with code
-32603 carrying the failure message. -/
theorem tool_failure_surfacing_amended :
    (∀ (backend : Backend) (msg : RpcMessage) (p : Json),
      msg.jsonrpc = some (.str "2.0") → msg.method = some "tools/call" →
      msg.params = some p → p ≠ .null →
      handleHttp backend msg =
        (⟨200, .rpc ⟨msg.id, .result (.toolResult
          (executeTool backend (getField p "name") (getField p "arguments")).1)⟩⟩,
         (executeTool backend (getField p "name") (getField p "arguments")).2)) ∧
    (∀ (backend : Backend) (name args : Option Json) (e : ExecError),
      toolSwitch name args = .localThrow e →
      executeTool backend name args = (errorEnvelope e, [])) ∧
    (∀ (backend : Backend) (name args : Option Json) (bc : BackendCall)
        (e : ExecError),
      toolSwitch name args = .call bc → backend bc = .error e →
      executeTool backend name args = (errorEnvelope e, [bc])) ∧
    (∀ e : ExecError, (errorEnvelope e).isError = some true) ∧
    (∀ (backend : Backend) (reg : List (String × Nat)) (q h : Option String)
        (sid : String) (ch : Nat) (msg : RpcMessage) (p : Json) (e : ExecError),
      (truthyStr q <|> truthyStr h) = some sid → lookupKey sid reg = some ch →
      msg.jsonrpc = some (.str "2.0") → msg.method = some "tools/call" →
      msg.params = some p → p ≠ .null →
      (toolSwitch (getField p "name") (getField p "arguments") = .localThrow e ∨
       ∃ bc, toolSwitch (getField p "name") (getField p "arguments") = .call bc ∧
         backend bc = .error e) →
      (handleSse backend reg q h msg).writes =
        [⟨msg.id, .error (-32603) e.message none⟩]) := by
  refine ⟨?_, ?_, ?_, fun e => rfl, ?_⟩
  · intro backend msg p hjs hm hp hpn
    unfold handleHttp
    rw [hjs, if_neg (fun hc => hc rfl), hm, if_neg (by decide)]
    dsimp only
    rw [if_neg (by decide), if_neg (by decide), if_pos rfl, hp]
    cases p with
    | null => exact absurd rfl hpn
    | str s => rfl
    | num n => rfl
    | bool b => rfl
    | arr xs => rfl
    | obj fs => rfl
  · intro backend name args e hts
    unfold executeTool
    rw [hts]
  · intro backend name args bc e hts hbe
    unfold executeTool
    rw [hts]
    dsimp only
    rw [hbe]
  · intro backend reg q h sid ch msg p e hres hreg hjs hm hp hpn hsw
    have hd : ∃ c, sseDispatch backend msg =
        .ok ([⟨msg.id, .error (-32603) e.message none⟩], c) := by
      unfold sseDispatch
      rw [hm, if_neg (by decide), if_pos rfl, hp]
      rcases hsw with hts | ⟨bc, hts, hbe⟩
      · cases p with
        | null => exact absurd rfl hpn
        | str s => dsimp only; rw [hts]; exact ⟨_, rfl⟩
        | num n => dsimp only; rw [hts]; exact ⟨_, rfl⟩
        | bool b => dsimp only; rw [hts]; exact ⟨_, rfl⟩
        | arr xs => dsimp only; rw [hts]; exact ⟨_, rfl⟩
        | obj fs => dsimp only; rw [hts]; exact ⟨_, rfl⟩
      · cases p with
        | null => exact absurd rfl hpn
        | str s => dsimp only; rw [hts]; dsimp only; rw [hbe]; exact ⟨_, rfl⟩
        | num n => dsimp only; rw [hts]; dsimp only; rw [hbe]; exact ⟨_, rfl⟩
        | bool b => dsimp only; rw [hts]; dsimp only; rw [hbe]; exact ⟨_, rfl⟩
        | arr xs => dsimp only; rw [hts]; dsimp only; rw [hbe]; exact ⟨_, rfl⟩
        | obj fs => dsimp only; rw [hts]; dsimp only; rw [hbe]; exact ⟨_, rfl⟩
    obtain ⟨c, hd⟩ := hd
    rw [handleSse_of_dispatch backend reg q h sid ch msg hres hreg hjs hd]

/-- Witness for the amended C1 theorem: a failing `listar_municipios` call on
the HTTP transport (isError envelope inside a successful result), and an
unknown tool on the streaming transport (a -32603 error frame). -/
theorem tool_failure_surfacing_amended_witness :
    handleHttp failBackend ⟨some (.str "2.0"), some (.num 1), some "tools/call",
        some (.obj [("name", .str "listar_municipios")])⟩ =
      (⟨200, .rpc ⟨some (.num 1), .result (.toolResult
        (executeTool failBackend (some (.str "listar_municipios")) none).1)⟩⟩,
       (executeTool failBackend (some (.str "listar_municipios")) none).2) ∧
    (handleSse failBackend [("abc", 0)] (some "abc") none
        ⟨some (.str "2.0"), some (.num 1), some "tools/call",
         some (.obj [("name", .str "foo")])⟩).writes =
      [⟨some (.num 1), .error (-32603) "Herramienta desconocida: foo" none⟩] :=
  ⟨tool_failure_surfacing_amended.1 failBackend
      ⟨some (.str "2.0"), some (.num 1), some "tools/call",
       some (.obj [("name", .str "listar_municipios")])⟩
      (.obj [("name", .str "listar_municipios")]) rfl rfl rfl (by decide),
   tool_failure_surfacing_amended.2.2.2.2 failBackend [("abc", 0)] (some "abc")
      none "abc" 0
      ⟨some (.str "2.0"), some (.num 1), some "tools/call",
       some (.obj [("name", .str "foo")])⟩
      (.obj [("name", .str "foo")]) ⟨"Error", "Herramienta desconocida: foo"⟩
      rfl rfl rfl rfl rfl (by decide) (.inl rfl)⟩

/-- C4: for every sequence of open / close / heartbeat-failure operations
from process start (including opens that reuse a client-supplied session id
already registered): (1) the registry keys are duplicate-free, so each
session identifier maps to at most one live channel; (2) a lookup never
returns the handle of a closed channel (no stale handles); (3) immediately
after the close of the channel registered under a session id, looking that
id up yields not-found. -/
theorem registry_invariant (evs : List RegEvent) :
    ((runReg evs).table.map Prod.fst).Nodup ∧
    (∀ s hch, lookupKey s (runReg evs).table = some hch →
      hch ∉ (runReg evs).closed) ∧
    (∀ hch sid, lookupConn hch (runReg evs).conns = some sid →
      lookupKey sid (runReg (evs ++ [.closeEv hch])).table = none) := by
  obtain ⟨h1, h2, h3, h4, h5, h6, h7⟩ := regInv_run evs
  refine ⟨h1, ?_, ?_⟩
  · intro s hch hl
    exact (h2 _ (lookupKey_mem hl)).2.1
  · intro hch sid hl
    have hstep : runReg (evs ++ [.closeEv hch]) = closeChannel hch (runReg evs) := by
      simp [runReg, List.foldl_append, stepReg]
    rw [hstep]
    unfold closeChannel
    rw [hl]
    exact lookupKey_eraseKey_self h1

/-- Witness for the C4 theorem: open session "x" (handle 0), check it is
live and that looking it up after its close yields not-found. -/
theorem registry_invariant_witness :
    lookupKey "x" (runReg [.openEv (some "x") "g"]).table = some 0 ∧
    (0 : Nat) ∉ (runReg [.openEv (some "x") "g"]).closed ∧
    lookupKey "x" (runReg ([.openEv (some "x") "g"] ++ [.closeEv 0])).table = none :=
  ⟨rfl,
   (registry_invariant [.openEv (some "x") "g"]).2.1 "x" 0 rfl,
   (registry_invariant [.openEv (some "x") "g"]).2.2 0 "x" rfl⟩

/-- C8: in every reachable state, closing an already-closed session (a
duplicate close signal for the same channel) is a no-op on the whole state —
no second registry deletion, no error (the operations are total functions) —
and the heartbeat cancellation is a no-op after whichever of explicit close
or heartbeat-write failure came first: a heartbeat failure after a close
changes nothing, and a close after a heartbeat failure equals the close
alone. -/
theorem close_idempotent (evs : List RegEvent) (h : Nat) :
    closeChannel h (closeChannel h (runReg evs)) = closeChannel h (runReg evs) ∧
    heartbeatFailure h (closeChannel h (runReg evs)) = closeChannel h (runReg evs) ∧
    closeChannel h (heartbeatFailure h (runReg evs)) = closeChannel h (runReg evs) := by
  obtain ⟨h1, h2, h3, h4, h5, h6, h7⟩ := regInv_run evs
  cases hconn : lookupConn h (runReg evs).conns with
  | none =>
    have hnt : h ∉ (runReg evs).timers := by
      intro hmem
      obtain ⟨s, hs⟩ := h7 h hmem
      exact lookupConn_eq_none hconn s hs
    have hcl : closeChannel h (runReg evs) = runReg evs := by
      unfold closeChannel
      rw [hconn]
    have hhb : heartbeatFailure h (runReg evs) = runReg evs := by
      unfold heartbeatFailure
      rw [eraseNat_of_not_mem hnt]
    rw [hcl, hhb, hcl]
    exact ⟨rfl, rfl, rfl⟩
  | some sid =>
    have hcl : closeChannel h (runReg evs) =
        ⟨eraseKey sid (runReg evs).table, (runReg evs).conns,
         insertNat h (runReg evs).closed, eraseNat h (runReg evs).timers,
         (runReg evs).nextHandle⟩ := by
      unfold closeChannel
      rw [hconn]
    have hnt2 : h ∉ eraseNat h (runReg evs).timers := not_mem_eraseNat h6
    refine ⟨?_, ?_, ?_⟩
    · rw [hcl]
      unfold closeChannel
      rw [hconn]
      dsimp only
      rw [eraseKey_eraseKey h1, insertNat_insertNat, eraseNat_eraseNat h6]
    · rw [hcl]
      unfold heartbeatFailure
      dsimp only
      rw [eraseNat_eraseNat h6]
    · unfold heartbeatFailure
      unfold closeChannel
      dsimp only
      rw [hconn]
      dsimp only
      rw [eraseNat_eraseNat h6]
